import Mathlib

/-!
Shallow embedding of `src/main.cpp` (an mbed reaction-time game) and proofs
about it.

Modelling conventions:
* Time is an absolute instant in microseconds (`Nat`).  Each interrupt /
  callback handler receives the instant `now` at which it runs.
* The mbed `Timer` (start/stop/reset/elapsed_time) is modelled by `TimerST`.
* The `Timeout` objects (`random_delay`, `debounce_user_button`,
  `debounce_external_button`) are modelled by `Option Nat` fields holding the
  absolute instant at which the pending one-shot fires (`none` = detached).
  `Ticker led_ticker` is modelled by `Option Nat` holding the period in ms.
* LCD calls (`LCD.Clear`, `LCD.DisplayStringAt`) write to an external display
  and touch no program state; they are identity in the state model (they do
  appear in the action-trace model below as `lcdClear`/`lcdText`).
* `uint32_t` values are `Nat` with an explicit `% 2^32` where the code
  assigns a possibly larger value (`reaction_time` in `show_result`).
* `rand()` returns a non-negative machine integer; its value is passed in as
  a `Nat` parameter `r`.
-/

namespace RTG

/-- The five application states, `enum AppState`, main.cpp lines 39-45.
`START` is the spec's `Waiting`, `GAME` is the spec's `Armed`. -/
inductive AppState
  | PREGAME
  | START
  | GAME
  | RESULT
  | CHEATING
deriving DecidableEq, Repr

/-- `UINT32_MAX`, the "no record" sentinel for `fastest_time`. -/
def UINT32_MAX : Nat := 4294967295

/-- `constexpr int DEBOUNCE_DELAY_MS = 200;` (main.cpp line 8). -/
def DEBOUNCE_DELAY_MS : Nat := 200

/-- State of the mbed `Timer reaction_timer`: whether it is running, the
microseconds accumulated over completed start/stop spans, and the absolute
instant of the last `start()` (meaningful while running). -/
structure TimerST where
  running : Bool
  accumUs : Nat
  startAt : Nat
deriving DecidableEq, Repr

/-- `Timer::reset()`: zero the accumulated time (a running timer restarts
counting from now). -/
def TimerST.reset (now : Nat) (t : TimerST) : TimerST :=
  { t with accumUs := 0, startAt := now }

/-- `Timer::start()`: begin counting if not already running. -/
def TimerST.start (now : Nat) (t : TimerST) : TimerST :=
  if t.running then t else { t with running := true, startAt := now }

/-- `Timer::stop()`: stop counting, banking the elapsed span. -/
def TimerST.stop (now : Nat) (t : TimerST) : TimerST :=
  if t.running then
    { running := false, accumUs := t.accumUs + (now - t.startAt), startAt := t.startAt }
  else t

/-- `Timer::elapsed_time()` in microseconds. -/
def TimerST.elapsed_us (t : TimerST) (now : Nat) : Nat :=
  if t.running then t.accumUs + (now - t.startAt) else t.accumUs

/-- The program's global mutable state (main.cpp lines 10-52). -/
structure Sys where
  state : AppState
  reaction_time : Nat
  fastest_time : Nat
  green_led : Bool
  led_state : Bool
  user_button_debouncing : Bool
  external_button_debouncing : Bool
  /-- pending `debounce_user_button` Timeout: instant at which it fires -/
  userDebounceClearAt : Option Nat
  /-- pending `debounce_external_button` Timeout -/
  externalDebounceClearAt : Option Nat
  /-- `led_ticker`: blink period in ms while attached -/
  ledTickerMs : Option Nat
  /-- pending `random_delay` Timeout: instant at which `on_random_delay_end` fires -/
  randomDelayAt : Option Nat
  timer : TimerST
deriving DecidableEq, Repr

/-- `toggle_led` (lines 177-180): flip `led_state` and drive the LED with it. -/
def toggle_led (s : Sys) : Sys :=
  { s with led_state := !s.led_state, green_led := !s.led_state }

/-- `start_pregame` (lines 101-107): state := PREGAME, LED off, idle blink at
100 ms; the two LCD calls touch no state. -/
def start_pregame (s : Sys) : Sys :=
  { s with state := .PREGAME, green_led := false, ledTickerMs := some 100 }

/-- The random delay expression `rand() % 4000 + 1000` (line 116), in ms. -/
def next_delay (r : Nat) : Nat := r % 4000 + 1000

/-- `start_game` (lines 110-125): state := START, LED off, stop blinking,
schedule `on_random_delay_end` after the sampled delay. -/
def start_game (now r : Nat) (s : Sys) : Sys :=
  { s with state := .START, green_led := false, ledTickerMs := none,
           randomDelayAt := some (now + next_delay r * 1000) }

/-- `on_random_delay_end` (lines 128-137): state := GAME, LED on,
reset and start the reaction timer.  Note the handler inspects nothing. -/
def on_random_delay_end (now : Nat) (s : Sys) : Sys :=
  { s with state := .GAME, green_led := true,
           timer := TimerST.start now (TimerST.reset now s.timer) }

/-- `show_result` (lines 140-157): stop the timer, record the elapsed time
truncated to whole milliseconds (a `uint32_t` assignment, hence `% 2^32`),
lower `fastest_time` if beaten, state := RESULT. -/
def show_result (now : Nat) (s : Sys) : Sys :=
  let t := TimerST.stop now s.timer
  let rt := (TimerST.elapsed_us t now / 1000) % 4294967296
  { s with timer := t,
           reaction_time := rt,
           fastest_time := if rt < s.fastest_time then rt else s.fastest_time,
           state := .RESULT }

/-- `reset_game` (lines 160-174): state := PREGAME, clear both records,
LED off, stop the reaction timer, detach the random delay and the ticker,
then call `start_pregame`.  The debounce Timeouts are not touched. -/
def reset_game (now : Nat) (s : Sys) : Sys :=
  start_pregame
    { s with state := .PREGAME,
             fastest_time := UINT32_MAX,
             reaction_time := 0,
             green_led := false,
             timer := TimerST.stop now s.timer,
             randomDelayAt := none,
             ledTickerMs := none }

/-- `detect_cheating` (lines 221-234): state := CHEATING, LED off, re-attach
the ticker at 500 ms, stop the reaction timer, detach the random delay. -/
def detect_cheating (now : Nat) (s : Sys) : Sys :=
  { s with state := .CHEATING,
           green_led := false,
           ledTickerMs := some 500,
           timer := TimerST.stop now s.timer,
           randomDelayAt := none }

/-- `debounce_user_button_callback` (lines 19-21); the `Timeout` that fired is
no longer pending, so the handle field is cleared too. -/
def debounce_user_button_callback (s : Sys) : Sys :=
  { s with user_button_debouncing := false, userDebounceClearAt := none }

/-- `debounce_external_button_callback` (lines 24-26). -/
def debounce_external_button_callback (s : Sys) : Sys :=
  { s with external_button_debouncing := false, externalDebounceClearAt := none }

/-- `on_user_button_press` (lines 183-213): drop the edge if debouncing;
otherwise set the debounce flag, schedule its clearing Timeout after 200 ms,
and dispatch on the current state. -/
def on_user_button_press (now r : Nat) (s : Sys) : Sys :=
  if s.user_button_debouncing then s
  else
    let s1 : Sys :=
      { s with user_button_debouncing := true,
               userDebounceClearAt := some (now + DEBOUNCE_DELAY_MS * 1000) }
    match s1.state with
    | .PREGAME => start_game now r s1
    | .START => detect_cheating now s1
    | .GAME => show_result now s1
    | .RESULT => start_pregame s1
    | .CHEATING => start_pregame s1

/-- `on_external_button_press` (lines 216-218): unconditionally reset.
There is no debounce check here. -/
def on_external_button_press (now : Nat) (s : Sys) : Sys :=
  reset_game now s

/-- The global variables at their initialisers (lines 15-52). -/
def sysBoot : Sys :=
  { state := .PREGAME,
    reaction_time := 0,
    fastest_time := UINT32_MAX,
    green_led := false,
    led_state := false,
    user_button_debouncing := false,
    external_button_debouncing := false,
    userDebounceClearAt := none,
    externalDebounceClearAt := none,
    ledTickerMs := none,
    randomDelayAt := none,
    timer := { running := false, accumUs := 0, startAt := 0 } }

/-- The state observable after `main` runs `start_pregame()` (line 77). -/
def sysInit : Sys := start_pregame sysBoot

/-- The asynchronous events that drive the program: button edges (with the
instant and, for the user button, the pending `rand()` sample consumed if a
game starts), and the firing of each Timeout / the Ticker. -/
inductive Ev
  | userPress (t r : Nat)
  | externalPress (t : Nat)
  | delayFire (t : Nat)
  | userDebounceFire (t : Nat)
  | externalDebounceFire (t : Nat)
  | blinkTick (t : Nat)
deriving DecidableEq, Repr

/-- Deliver one event to the state.  A fired Timeout is no longer pending,
so `delayFire` clears `randomDelayAt` before running the callback. -/
def step : Ev → Sys → Sys
  | .userPress t r, s => on_user_button_press t r s
  | .externalPress t, s => on_external_button_press t s
  | .delayFire t, s => on_random_delay_end t { s with randomDelayAt := none }
  | .userDebounceFire _, s => debounce_user_button_callback s
  | .externalDebounceFire _, s => debounce_external_button_callback s
  | .blinkTick _, s => toggle_led s

/-- An event is deliverable in a state: a Timeout fires only when pending and
exactly at its scheduled instant; the Ticker ticks only while attached. -/
def EvOk (s : Sys) : Ev → Prop
  | .userPress _ _ => True
  | .externalPress _ => True
  | .delayFire t => s.randomDelayAt = some t
  | .userDebounceFire t => s.userDebounceClearAt = some t
  | .externalDebounceFire t => s.externalDebounceClearAt = some t
  | .blinkTick _ => s.ledTickerMs ≠ none

/-- Run a list of events left to right. -/
def runEvents : List Ev → Sys → Sys
  | [], s => s
  | e :: es, s => runEvents es (step e s)

/-!
Action-trace model.  To reason about the ORDER of the individual mutations
inside a handler (claim C4), each statement of `detect_cheating`,
`reset_game` and `start_pregame` is listed as one primitive action, in
source order.  Interpreting a trace recovers the handler itself
(`runActs_detectCheating` etc. below), so the two models agree.
-/

/-- One primitive statement of a handler body. -/
inductive Act
  | setState (st : AppState)
  | setFastest (v : Nat)
  | setReaction (v : Nat)
  | setLed (b : Bool)
  | tickerAttach (ms : Nat)
  | tickerDetach
  | timerStop
  | delayDetach
  | lcdClear
  | lcdText
deriving DecidableEq, Repr

/-- Interpret one primitive action on the state.  LCD calls write only to the
external display. -/
def runAct (now : Nat) (s : Sys) : Act → Sys
  | .setState st => { s with state := st }
  | .setFastest v => { s with fastest_time := v }
  | .setReaction v => { s with reaction_time := v }
  | .setLed b => { s with green_led := b }
  | .tickerAttach ms => { s with ledTickerMs := some ms }
  | .tickerDetach => { s with ledTickerMs := none }
  | .timerStop => { s with timer := TimerST.stop now s.timer }
  | .delayDetach => { s with randomDelayAt := none }
  | .lcdClear => s
  | .lcdText => s

/-- Interpret a trace of actions left to right. -/
def runActs (now : Nat) (acts : List Act) (s : Sys) : Sys :=
  acts.foldl (runAct now) s

/-- The body of `detect_cheating` (lines 221-234), statement by statement:
`state = CHEATING; LCD.Clear; LCD.DisplayStringAt; green_led = 0;
led_ticker.detach(); led_ticker.attach(..., 500ms); reaction_timer.stop();
random_delay.detach();`. -/
def detectCheatingActs : List Act :=
  [.setState .CHEATING, .lcdClear, .lcdText, .setLed false,
   .tickerDetach, .tickerAttach 500, .timerStop, .delayDetach]

/-- The body of `start_pregame` (lines 101-107), statement by statement. -/
def startPregameActs : List Act :=
  [.setState .PREGAME, .setLed false, .tickerAttach 100, .lcdClear, .lcdText]

/-- The body of `reset_game` (lines 160-174), statement by statement; the
final `start_pregame()` call contributes its own trace. -/
def resetGameActs : List Act :=
  [.setState .PREGAME, .setFastest UINT32_MAX, .setReaction 0, .setLed false,
   .timerStop, .delayDetach, .tickerDetach, .lcdClear] ++ startPregameActs

/-- The trace model agrees with `detect_cheating`. -/
theorem runActs_detectCheating (now : Nat) (s : Sys) :
    runActs now detectCheatingActs s = detect_cheating now s := by
  cases s; rfl

/-- The trace model agrees with `start_pregame`. -/
theorem runActs_startPregame (now : Nat) (s : Sys) :
    runActs now startPregameActs s = start_pregame s := by
  cases s; rfl

/-- The trace model agrees with `reset_game`. -/
theorem runActs_resetGame (now : Nat) (s : Sys) :
    runActs now resetGameActs s = reset_game now s := by
  cases s; rfl

/-- Does an action mutate program state?  Only the LCD calls (external
display) and the cancellation itself do not. -/
def mutatesState : Act → Bool
  | .lcdClear => false
  | .lcdText => false
  | .delayDetach => false
  | _ => true

/-- Does a trace cancel the go-signal delay before performing any other
state mutation?  True iff every action strictly before the first
`delayDetach` is a non-mutating one. -/
def cancelFirst (acts : List Act) : Bool :=
  (acts.takeWhile (fun a => !(a == Act.delayDetach))).all (fun a => !mutatesState a)

/-!  Claim theorems  -/

/-- C8: every value produced by the random delay expression
`rand() % 4000 + 1000` lies in the closed-open interval [1000 ms, 5000 ms),
for every possible value of the underlying random source. -/
theorem next_delay_in_range (r : Nat) :
    1000 ≤ next_delay r ∧ next_delay r < 5000 := by
  unfold next_delay
  have h : r % 4000 < 4000 := Nat.mod_lt r (by norm_num)
  omega

/-- C10: the go-delay callback `on_random_delay_end` performs no check of the
current phase: it unconditionally sets the phase to GAME (Armed), turns the
LED on, and resets and starts the reaction timer, whatever the phase was at
the moment of invocation (replacing the phase before the call changes
nothing about the outcome). -/
theorem on_random_delay_end_unconditional :
    (∀ now (s : Sys),
       (on_random_delay_end now s).state = .GAME ∧
       (on_random_delay_end now s).green_led = true ∧
       (on_random_delay_end now s).timer.running = true ∧
       (on_random_delay_end now s).timer.accumUs = 0 ∧
       (on_random_delay_end now s).timer.startAt = now) ∧
    (∀ now (s : Sys) (st : AppState),
       on_random_delay_end now { s with state := st } = on_random_delay_end now s) := by
  constructor
  · intro now s
    unfold on_random_delay_end TimerST.start TimerST.reset
    refine ⟨rfl, rfl, ?_, ?_, ?_⟩ <;> split <;> simp_all
  · intro now s st
    rfl

/-- C6: a user press accepted while in START (Waiting) always transitions to
CHEATING — never to GAME (Armed) or RESULT — cancels the pending go-signal
delay, and starts the slow 500 ms blink. -/
theorem waiting_press_goes_cheating (now r : Nat) (s : Sys)
    (hdb : s.user_button_debouncing = false) (hst : s.state = .START) :
    (on_user_button_press now r s).state = .CHEATING ∧
    (on_user_button_press now r s).state ≠ .GAME ∧
    (on_user_button_press now r s).state ≠ .RESULT ∧
    (on_user_button_press now r s).randomDelayAt = none ∧
    (on_user_button_press now r s).ledTickerMs = some 500 := by
  simp [on_user_button_press, hdb, hst, detect_cheating]

/-- Concrete Waiting-phase state used to witness `waiting_press_goes_cheating`. -/
def waitingSys : Sys :=
  { sysInit with state := .START, ledTickerMs := none, randomDelayAt := some 2500000 }

/-- C6 witness: the theorem applied at a concrete Waiting state. -/
theorem waiting_press_goes_cheating_witness :
    (on_user_button_press 7 3 waitingSys).state = .CHEATING ∧
    (on_user_button_press 7 3 waitingSys).state ≠ .GAME ∧
    (on_user_button_press 7 3 waitingSys).state ≠ .RESULT ∧
    (on_user_button_press 7 3 waitingSys).randomDelayAt = none ∧
    (on_user_button_press 7 3 waitingSys).ledTickerMs = some 500 :=
  waiting_press_goes_cheating 7 3 waitingSys rfl rfl

/-- Concrete state with a pending user-button debounce Timeout, as left by an
accepted user press shortly before an external press. -/
def resetCounterSys : Sys :=
  { sysInit with user_button_debouncing := true, userDebounceClearAt := some 100000 }

/-- C5 counterexample: `reset_game` does NOT cancel all pending
delays/timers — an external press while the user button's debounce Timeout
is pending leaves that Timeout pending (and the debounce flag set), so the
machine does not land in PreGame with no pending delay or timer. -/
theorem reset_leaves_debounce_pending :
    (on_external_button_press 50000 resetCounterSys).userDebounceClearAt = some 100000 ∧
    (on_external_button_press 50000 resetCounterSys).user_button_debouncing = true := by
  decide

/-- C5 amended: an external press accepted in any state cancels the pending
go-signal delay, stops the reaction timer, detaches the blink ticker and
re-attaches it at the idle 100 ms rate, resets `fastest_time` to the
sentinel and `reaction_time` to 0, turns the LED off, and lands in PREGAME;
the debounce Timeouts and flags are left untouched. -/
theorem external_reset_lands_pregame (now : Nat) (s : Sys) :
    (on_external_button_press now s).state = .PREGAME ∧
    (on_external_button_press now s).fastest_time = UINT32_MAX ∧
    (on_external_button_press now s).reaction_time = 0 ∧
    (on_external_button_press now s).green_led = false ∧
    (on_external_button_press now s).ledTickerMs = some 100 ∧
    (on_external_button_press now s).randomDelayAt = none ∧
    (on_external_button_press now s).timer.running = false ∧
    (on_external_button_press now s).userDebounceClearAt = s.userDebounceClearAt ∧
    (on_external_button_press now s).user_button_debouncing = s.user_button_debouncing ∧
    (on_external_button_press now s).externalDebounceClearAt = s.externalDebounceClearAt ∧
    (on_external_button_press now s).external_button_debouncing
      = s.external_button_debouncing := by
  unfold on_external_button_press reset_game start_pregame TimerST.stop
  refine ⟨rfl, rfl, rfl, rfl, rfl, rfl, ?_, rfl, rfl, rfl, rfl⟩
  split <;> simp_all

/-- C4 counterexample: in both handlers that leave the Waiting phase, the
cancellation `random_delay.detach()` is NOT performed before the other state
mutations — in each trace, mutating actions (starting with the phase
assignment itself) precede the first `delayDetach`. -/
theorem cancel_not_before_mutation :
    cancelFirst detectCheatingActs = false ∧ cancelFirst resetGameActs = false := by
  decide

/-- C4 amended: both transitions out of Waiting do cancel the pending
go-signal delay, but as the last (resp. a late) action of the handler,
AFTER the phase assignment, which is each handler's first action; the delay
is certainly no longer pending when the handler completes. -/
theorem waiting_exit_cancels_delay_late :
    Act.delayDetach ∈ detectCheatingActs ∧
    Act.delayDetach ∈ resetGameActs ∧
    detectCheatingActs.head? = some (Act.setState .CHEATING) ∧
    resetGameActs.head? = some (Act.setState .PREGAME) ∧
    (∀ now (s : Sys), (detect_cheating now s).randomDelayAt = none) ∧
    (∀ now (s : Sys), (reset_game now s).randomDelayAt = none) := by
  refine ⟨by decide, by decide, rfl, rfl, fun now s => rfl, fun now s => rfl⟩

/-- The transition table of spec §4.4 for accepted user-button presses
(spec names: PreGame→Waiting, Waiting→Cheating, Armed→Result,
Result→PreGame, Cheating→PreGame). -/
def specTableNext : AppState → AppState
  | .PREGAME => .START
  | .START => .CHEATING
  | .GAME => .RESULT
  | .RESULT => .PREGAME
  | .CHEATING => .PREGAME

/-- C1: along every event sequence from the initial PreGame state the phase
is one of the five defined values, and every accepted user-button press
moves the phase exactly as the §4.4 table prescribes. -/
theorem phase_follows_table :
    (∀ evs : List Ev,
       (runEvents evs sysInit).state = .PREGAME ∨
       (runEvents evs sysInit).state = .START ∨
       (runEvents evs sysInit).state = .GAME ∨
       (runEvents evs sysInit).state = .RESULT ∨
       (runEvents evs sysInit).state = .CHEATING) ∧
    (∀ now r (s : Sys), s.user_button_debouncing = false →
       (on_user_button_press now r s).state = specTableNext s.state) := by
  constructor
  · intro evs
    cases h : (runEvents evs sysInit).state <;> simp
  · intro now r s hdb
    cases hst : s.state <;>
      simp [on_user_button_press, hdb, hst, specTableNext,
            start_game, detect_cheating, show_result, start_pregame]

/-- C1 witness: the table theorem applied at the initial state. -/
theorem phase_follows_table_witness :
    (on_user_button_press 0 0 sysInit).state = specTableNext sysInit.state :=
  phase_follows_table.2 0 0 sysInit rfl

/-- C9: a user press accepted in RESULT or CHEATING returns the machine to
PREGAME leaving both records unchanged; and for ANY event, a change to
`reaction_time` or `fastest_time` can only come from an external press or
from a user press accepted in GAME (a completed Armed round). -/
theorem records_frame :
    (∀ now r (s : Sys), s.user_button_debouncing = false →
       s.state = .RESULT ∨ s.state = .CHEATING →
       (on_user_button_press now r s).state = .PREGAME ∧
       (on_user_button_press now r s).reaction_time = s.reaction_time ∧
       (on_user_button_press now r s).fastest_time = s.fastest_time) ∧
    (∀ (e : Ev) (s : Sys),
       (step e s).reaction_time ≠ s.reaction_time ∨
       (step e s).fastest_time ≠ s.fastest_time →
       (∃ t, e = .externalPress t) ∨
       (∃ t r, e = .userPress t r ∧ s.state = .GAME ∧
               s.user_button_debouncing = false)) := by
  constructor
  · intro now r s hdb hst
    rcases hst with h | h <;> simp [on_user_button_press, hdb, h, start_pregame]
  · intro e s hne
    cases e with
    | userPress t r =>
      cases hdb : s.user_button_debouncing with
      | true =>
        exfalso
        simp [step, on_user_button_press, hdb] at hne
      | false =>
        cases hst : s.state
        case GAME => exact Or.inr ⟨t, r, rfl, rfl, rfl⟩
        all_goals
          exfalso
          simp [step, on_user_button_press, hdb, hst,
                start_game, detect_cheating, start_pregame] at hne
    | externalPress t => exact Or.inl ⟨t, rfl⟩
    | delayFire t =>
      exfalso; simp [step, on_random_delay_end] at hne
    | userDebounceFire t =>
      exfalso; simp [step, debounce_user_button_callback] at hne
    | externalDebounceFire t =>
      exfalso; simp [step, debounce_external_button_callback] at hne
    | blinkTick t =>
      exfalso; simp [step, toggle_led] at hne

/-- Concrete RESULT state used to witness `records_frame`. -/
def resultSys : Sys :=
  { sysInit with state := .RESULT, reaction_time := 321, fastest_time := 321 }

/-- C9 witness: the frame theorem applied at a concrete RESULT state. -/
theorem records_frame_witness :
    (on_user_button_press 0 0 resultSys).state = .PREGAME ∧
    (on_user_button_press 0 0 resultSys).reaction_time = resultSys.reaction_time ∧
    (on_user_button_press 0 0 resultSys).fastest_time = resultSys.fastest_time :=
  records_frame.1 0 0 resultSys rfl (Or.inl rfl)

/-- Concrete state holding a best time, pressed by the external button. -/
def extPressSys : Sys := { sysInit with fastest_time := 7 }

/-- C3 counterexample: an external-button press is processed with no debounce
at all — the press at instant 0 takes effect (it resets the record to the
sentinel), yet contrary to the claim it neither sets the external debounce
flag nor schedules a clearing Timeout, so a press arriving any time later
(in particular within 200 ms) is accepted as well. -/
theorem external_press_not_debounced :
    (on_external_button_press 0 extPressSys).fastest_time = UINT32_MAX ∧
    (on_external_button_press 0 extPressSys).external_button_debouncing = false ∧
    (on_external_button_press 0 extPressSys).externalDebounceClearAt = none := by
  decide

/-- C3 amended: for the USER button, a press edge arriving while its
debounce flag is true is dropped with no side effect; an accepted press
sets the flag and schedules the Timeout that clears it 200 ms later; a
second user press before that instant is a complete no-op (one accepted
press), while after the Timeout fires a second press is accepted and arms
its own 200 ms window.  The EXTERNAL button's handler is exactly
`reset_game` with no debounce check: it never drops an edge and never
touches its debounce flag or Timeout. -/
theorem debounce_user_only
    (t r t2 r2 : Nat) (s : Sys) (hdb : s.user_button_debouncing = false)
    (h1 : t ≤ t2) (h2 : t2 < t + DEBOUNCE_DELAY_MS * 1000)
    (t3 r3 : Nat) (h3 : t + DEBOUNCE_DELAY_MS * 1000 ≤ t3) :
    (∀ now rr (s1 : Sys), s1.user_button_debouncing = true →
       on_user_button_press now rr s1 = s1) ∧
    ((on_user_button_press t r s).user_button_debouncing = true ∧
     (on_user_button_press t r s).userDebounceClearAt
       = some (t + DEBOUNCE_DELAY_MS * 1000)) ∧
    runEvents [.userPress t r, .userPress t2 r2] s
      = runEvents [.userPress t r] s ∧
    ((runEvents [.userPress t r,
                 .userDebounceFire (t + DEBOUNCE_DELAY_MS * 1000)] s).user_button_debouncing
       = false ∧
     (runEvents [.userPress t r,
                 .userDebounceFire (t + DEBOUNCE_DELAY_MS * 1000),
                 .userPress t3 r3] s).user_button_debouncing = true ∧
     (runEvents [.userPress t r,
                 .userDebounceFire (t + DEBOUNCE_DELAY_MS * 1000),
                 .userPress t3 r3] s).userDebounceClearAt
       = some (t3 + DEBOUNCE_DELAY_MS * 1000)) ∧
    (∀ now (s1 : Sys),
       on_external_button_press now s1 = reset_game now s1 ∧
       (on_external_button_press now s1).external_button_debouncing
         = s1.external_button_debouncing ∧
       (on_external_button_press now s1).externalDebounceClearAt
         = s1.externalDebounceClearAt) := by
  have hdrop : ∀ now rr (s1 : Sys), s1.user_button_debouncing = true →
      on_user_button_press now rr s1 = s1 := by
    intro now rr s1 h
    simp [on_user_button_press, h]
  have haccept : ∀ now rr (s1 : Sys), s1.user_button_debouncing = false →
      (on_user_button_press now rr s1).user_button_debouncing = true ∧
      (on_user_button_press now rr s1).userDebounceClearAt
        = some (now + DEBOUNCE_DELAY_MS * 1000) := by
    intro now rr s1 h
    cases hst : s1.state <;>
      simp [on_user_button_press, h, hst,
            start_game, detect_cheating, show_result, start_pregame]
  refine ⟨hdrop, haccept t r s hdb, ?_, ?_, ?_⟩
  · simp only [runEvents, step]
    exact congrArg (fun x => x) (hdrop t2 r2 _ (haccept t r s hdb).1)
  · refine ⟨rfl, ?_, ?_⟩
    · exact (haccept t3 r3
        (debounce_user_button_callback (on_user_button_press t r s)) rfl).1
    · exact (haccept t3 r3
        (debounce_user_button_callback (on_user_button_press t r s)) rfl).2
  · intro now s1
    exact ⟨rfl, rfl, rfl⟩

/-- C3 witness: the amended debounce theorem applied at concrete instants
(a second press 100 ms after the first is a no-op). -/
theorem debounce_user_only_witness :
    runEvents [Ev.userPress 0 5, Ev.userPress 100000 6] sysInit
      = runEvents [Ev.userPress 0 5] sysInit :=
  (debounce_user_only 0 5 100000 6 sysInit rfl (by decide) (by decide)
     300000 9 (by decide)).2.2.1

/-- C7: when the pending go-delay expires in Waiting, the machine enters
GAME (Armed) with the LED on steady and the reaction timer reset and
started at that instant; a press then accepted in GAME stops the timer and
sets `reaction_time` to the microsecond span between the start and the stop
truncated to whole milliseconds (exactly so whenever the span fits in
`uint32_t`, as the `% 2^32` of the cast shows). -/
theorem arm_then_measure (armT pressT r : Nat) (s : Sys)
    (hst : s.state = .START)
    (hpend : EvOk s (.delayFire armT))
    (hdb : s.user_button_debouncing = false)
    (hle : armT ≤ pressT) :
    ((step (.delayFire armT) s).state = .GAME ∧
     (step (.delayFire armT) s).green_led = true ∧
     (step (.delayFire armT) s).timer.running = true ∧
     (step (.delayFire armT) s).timer.accumUs = 0 ∧
     (step (.delayFire armT) s).timer.startAt = armT) ∧
    ((step (.userPress pressT r) (step (.delayFire armT) s)).state = .RESULT ∧
     (step (.userPress pressT r) (step (.delayFire armT) s)).timer.running = false ∧
     (step (.userPress pressT r) (step (.delayFire armT) s)).reaction_time
       = ((pressT - armT) / 1000) % 4294967296) ∧
    ((pressT - armT) / 1000 < 4294967296 →
     (step (.userPress pressT r) (step (.delayFire armT) s)).reaction_time
       = (pressT - armT) / 1000) := by
  have harm : step (.delayFire armT) s
      = on_random_delay_end armT { s with randomDelayAt := none } := rfl
  have htmr : (step (.delayFire armT) s).timer
      = { running := true, accumUs := 0, startAt := armT } := by
    rw [harm]
    unfold on_random_delay_end TimerST.start TimerST.reset
    split <;> simp_all
  have hfst : (step (.delayFire armT) s).state = .GAME := rfl
  have hfdb : (step (.delayFire armT) s).user_button_debouncing = false := hdb
  have hgame : ∀ (now rr : Nat) (s1 : Sys), s1.user_button_debouncing = false →
      s1.state = .GAME →
      (on_user_button_press now rr s1).state = .RESULT ∧
      (on_user_button_press now rr s1).timer = TimerST.stop now s1.timer ∧
      (on_user_button_press now rr s1).reaction_time
        = (TimerST.elapsed_us (TimerST.stop now s1.timer) now / 1000) % 4294967296 := by
    intro now rr s1 h hstate
    simp [on_user_button_press, h, hstate, show_result]
  obtain ⟨g1, g2, g3⟩ := hgame pressT r _ hfdb hfst
  have hstop : TimerST.stop pressT (step (.delayFire armT) s).timer
      = { running := false, accumUs := pressT - armT, startAt := armT } := by
    rw [htmr]; unfold TimerST.stop; simp
  refine ⟨⟨rfl, rfl, by rw [htmr], by rw [htmr], by rw [htmr]⟩, ⟨g1, ?_, ?_⟩, ?_⟩
  · show (on_user_button_press pressT r (step (.delayFire armT) s)).timer.running = false
    rw [g2, hstop]
  · show (on_user_button_press pressT r (step (.delayFire armT) s)).reaction_time = _
    rw [g3, hstop]
    unfold TimerST.elapsed_us
    simp
  · intro hlt
    show (on_user_button_press pressT r (step (.delayFire armT) s)).reaction_time = _
    rw [g3, hstop]
    unfold TimerST.elapsed_us
    simp [Nat.mod_eq_of_lt hlt]

/-!
Machinery for C2: completed rounds and the evolution of `fastest_time`.
-/

/-- One completed round of play: the instant of the accepted PREGAME press,
the `rand()` sample it consumes, and the instants of the accepted GAME and
RESULT presses (all in microseconds). -/
structure RoundSpec where
  t0 : Nat
  r : Nat
  pressT : Nat
  ackT : Nat
deriving DecidableEq, Repr

/-- The instant at which the round's go-delay fires. -/
def RoundSpec.armT (rs : RoundSpec) : Nat := rs.t0 + next_delay rs.r * 1000

/-- The event sequence of one completed round: press (PREGAME→START), that
press's debounce Timeout firing, the go-delay firing (→GAME), press
(→RESULT), its debounce Timeout, press (→PREGAME), its debounce Timeout. -/
def roundEvents (rs : RoundSpec) : List Ev :=
  [.userPress rs.t0 rs.r,
   .userDebounceFire (rs.t0 + DEBOUNCE_DELAY_MS * 1000),
   .delayFire rs.armT,
   .userPress rs.pressT 0,
   .userDebounceFire (rs.pressT + DEBOUNCE_DELAY_MS * 1000),
   .userPress rs.ackT 0,
   .userDebounceFire (rs.ackT + DEBOUNCE_DELAY_MS * 1000)]

/-- The events of a whole session of completed rounds. -/
def roundsEvents (l : List RoundSpec) : List Ev := (l.map roundEvents).flatten

/-- The `current_ms` value the code records for a round (the timer runs from
the go-delay firing to the GAME press; `uint32_t` cast included). -/
def roundReaction (rs : RoundSpec) : Nat :=
  ((rs.pressT - rs.armT) / 1000) % 4294967296

theorem runEvents_append (a b : List Ev) (s : Sys) :
    runEvents (a ++ b) s = runEvents b (runEvents a s) := by
  induction a generalizing s with
  | nil => rfl
  | cons e es ih => simp [runEvents, ih]

/-- Effect of one completed round on the machine: it returns to PREGAME
with the debounce flag clear, records the round's reaction time, and lowers
`fastest_time` to the minimum of its old value and that reaction time. -/
theorem round_effect (rs : RoundSpec) (s : Sys)
    (hst : s.state = .PREGAME) (hdb : s.user_button_debouncing = false) :
    (runEvents (roundEvents rs) s).state = .PREGAME ∧
    (runEvents (roundEvents rs) s).user_button_debouncing = false ∧
    (runEvents (roundEvents rs) s).reaction_time = roundReaction rs ∧
    (runEvents (roundEvents rs) s).fastest_time
      = min s.fastest_time (roundReaction rs) := by
  simp only [roundEvents, runEvents, step]
  simp only [on_user_button_press, hdb, hst, Bool.false_eq_true, if_false,
             start_game, debounce_user_button_callback]
  simp only [on_random_delay_end, TimerST.reset, TimerST.start]
  simp [on_user_button_press, show_result, start_pregame,
        TimerST.stop, TimerST.elapsed_us, roundReaction, RoundSpec.armT,
        debounce_user_button_callback, Nat.min_def]
  split_ifs <;> simp_all <;> omega

/-- Effect of a whole session of completed rounds: the machine returns to
PREGAME and `fastest_time` is the running minimum of its starting value and
every round's reaction time. -/
theorem rounds_effect (l : List RoundSpec) : ∀ (s : Sys),
    s.state = .PREGAME → s.user_button_debouncing = false →
    (runEvents (roundsEvents l) s).state = .PREGAME ∧
    (runEvents (roundsEvents l) s).user_button_debouncing = false ∧
    (runEvents (roundsEvents l) s).fastest_time
      = (l.map roundReaction).foldl min s.fastest_time := by
  induction l with
  | nil => intro s h1 h2; exact ⟨h1, h2, rfl⟩
  | cons rs rest ih =>
    intro s h1 h2
    obtain ⟨ha, hb, _, hd⟩ := round_effect rs s h1 h2
    have happ : roundsEvents (rs :: rest) = roundEvents rs ++ roundsEvents rest := by
      simp [roundsEvents]
    rw [happ, runEvents_append]
    obtain ⟨ia, ib, ic⟩ := ih (runEvents (roundEvents rs) s) ha hb
    refine ⟨ia, ib, ?_⟩
    rw [ic, hd]
    simp

theorem foldl_min_le_init : ∀ (l : List Nat) (a : Nat), l.foldl min a ≤ a := by
  intro l
  induction l with
  | nil => intro a; exact le_refl a
  | cons x xs ih =>
    intro a
    exact le_trans (ih (min a x)) (Nat.min_le_left a x)

theorem foldl_min_le_mem : ∀ (l : List Nat) (a x : Nat), x ∈ l → l.foldl min a ≤ x := by
  intro l
  induction l with
  | nil => intro a x hx; cases hx
  | cons y ys ih =>
    intro a x hx
    rcases List.mem_cons.mp hx with h | h
    · subst h
      exact le_trans (foldl_min_le_init ys (min a x)) (Nat.min_le_right a x)
    · exact ih (min a y) x h

theorem foldl_min_mem_or :
    ∀ (l : List Nat) (a : Nat), l.foldl min a = a ∨ l.foldl min a ∈ l := by
  intro l
  induction l with
  | nil => intro a; exact Or.inl rfl
  | cons x xs ih =>
    intro a
    rcases ih (min a x) with h | h
    · rw [List.foldl_cons, h]
      rcases le_or_lt a x with hax | hax
      · exact Or.inl (min_eq_left hax)
      · refine Or.inr ?_
        rw [min_eq_right (le_of_lt hax)]
        exact List.mem_cons_self x xs
    · exact Or.inr (List.mem_cons_of_mem x h)

/-- A press accepted in GAME updates `fastest_time` to
`if rt < fastest then rt else fastest` for some `rt < 2^32`. -/
theorem press_game_fastest (now r : Nat) (s : Sys)
    (hdb : s.user_button_debouncing = false) (hst : s.state = .GAME) :
    ∃ rt, rt < 4294967296 ∧
      (on_user_button_press now r s).fastest_time
        = if rt < s.fastest_time then rt else s.fastest_time := by
  refine ⟨(TimerST.elapsed_us (TimerST.stop now s.timer) now / 1000) % 4294967296,
          Nat.mod_lt _ (by norm_num), ?_⟩
  simp [on_user_button_press, hdb, hst, show_result]

/-- No single event can raise `fastest_time` above the sentinel. -/
theorem step_fastest_le (e : Ev) (s : Sys) (hle : s.fastest_time ≤ UINT32_MAX) :
    (step e s).fastest_time ≤ UINT32_MAX := by
  cases e with
  | userPress t r =>
    cases hdb : s.user_button_debouncing with
    | true =>
      have : step (.userPress t r) s = s := by
        simp [step, on_user_button_press, hdb]
      rw [this]; exact hle
    | false =>
      cases hst : s.state
      case GAME =>
        obtain ⟨rt, hrt, heq⟩ := press_game_fastest t r s hdb hst
        show (on_user_button_press t r s).fastest_time ≤ UINT32_MAX
        rw [heq]
        unfold UINT32_MAX at *
        split_ifs <;> omega
      all_goals
        show (on_user_button_press t r s).fastest_time ≤ UINT32_MAX
        simp [on_user_button_press, hdb, hst, start_game, start_pregame,
              detect_cheating]
        exact hle
  | externalPress t => exact le_of_eq rfl
  | delayFire t => exact hle
  | userDebounceFire t => exact hle
  | externalDebounceFire t => exact hle
  | blinkTick t => exact hle

/-- The sentinel bound holds along every run from the initial state. -/
theorem runEvents_fastest_le (evs : List Ev) :
    (runEvents evs sysInit).fastest_time ≤ UINT32_MAX := by
  have : ∀ (l : List Ev) (s : Sys), s.fastest_time ≤ UINT32_MAX →
      (runEvents l s).fastest_time ≤ UINT32_MAX := by
    intro l
    induction l with
    | nil => intro s h; exact h
    | cons e es ih => intro s h; exact ih (step e s) (step_fastest_le e s h)
  exact this evs sysInit (le_refl _)

/-- Only an external press can restore the sentinel once it has been beaten. -/
theorem step_fastest_to_max (e : Ev) (s : Sys)
    (hle : s.fastest_time ≤ UINT32_MAX)
    (hmax : (step e s).fastest_time = UINT32_MAX) :
    s.fastest_time = UINT32_MAX ∨ ∃ t, e = .externalPress t := by
  cases e with
  | externalPress t => exact Or.inr ⟨t, rfl⟩
  | userPress t r =>
    left
    cases hdb : s.user_button_debouncing with
    | true =>
      have hid : step (.userPress t r) s = s := by
        simp [step, on_user_button_press, hdb]
      rw [hid] at hmax; exact hmax
    | false =>
      cases hst : s.state
      case GAME =>
        obtain ⟨rt, hrt, heq⟩ := press_game_fastest t r s hdb hst
        have hmax2 : (on_user_button_press t r s).fastest_time = UINT32_MAX := hmax
        rw [heq] at hmax2
        unfold UINT32_MAX at *
        split_ifs at hmax2 <;> omega
      all_goals
        have hmax2 : (on_user_button_press t r s).fastest_time = UINT32_MAX := hmax
        simp [on_user_button_press, hdb, hst, start_game, start_pregame,
              detect_cheating] at hmax2
        exact hmax2
  | delayFire t => exact Or.inl hmax
  | userDebounceFire t => exact Or.inl hmax
  | externalDebounceFire t => exact Or.inl hmax
  | blinkTick t => exact Or.inl hmax

/-- Concrete Waiting state with the go-delay pending, used to witness
`arm_then_measure`. -/
def armWitnessSys : Sys :=
  { sysInit with state := .START, ledTickerMs := none, randomDelayAt := some 2000 }

/-- C7 witness: delay fires at 2 ms, press follows 350 ms later; the
measured reaction time is 350 ms. -/
theorem arm_then_measure_witness :
    ((step (.delayFire 2000) armWitnessSys).state = .GAME ∧
     (step (.delayFire 2000) armWitnessSys).green_led = true ∧
     (step (.delayFire 2000) armWitnessSys).timer.running = true ∧
     (step (.delayFire 2000) armWitnessSys).timer.accumUs = 0 ∧
     (step (.delayFire 2000) armWitnessSys).timer.startAt = 2000) ∧
    ((step (.userPress 352000 0) (step (.delayFire 2000) armWitnessSys)).state = .RESULT ∧
     (step (.userPress 352000 0) (step (.delayFire 2000) armWitnessSys)).timer.running
       = false ∧
     (step (.userPress 352000 0) (step (.delayFire 2000) armWitnessSys)).reaction_time
       = ((352000 - 2000) / 1000) % 4294967296) ∧
    ((352000 - 2000) / 1000 < 4294967296 →
     (step (.userPress 352000 0) (step (.delayFire 2000) armWitnessSys)).reaction_time
       = (352000 - 2000) / 1000) :=
  arm_then_measure 2000 352000 0 armWitnessSys rfl rfl rfl (by decide)

/-- C2: `fastest_time` never increases when a round completes; after any
session of N completed rounds from a fresh state it equals the fold of
`min` over the rounds' reaction times, so for N ≥ 1 it is exactly the
minimum of those `current_ms` values; `reset_game` restores the sentinel
from any state; and along any run from the initial state, no event other
than an external press can restore the sentinel once it has been beaten. -/
theorem best_time_properties :
    (∀ now (s : Sys), (show_result now s).fastest_time ≤ s.fastest_time) ∧
    (∀ (l : List RoundSpec) (s : Sys),
       s.state = .PREGAME → s.user_button_debouncing = false →
       (runEvents (roundsEvents l) s).fastest_time
         = (l.map roundReaction).foldl min s.fastest_time) ∧
    (∀ l : List RoundSpec, l ≠ [] →
       (runEvents (roundsEvents l) sysInit).fastest_time ∈ l.map roundReaction ∧
       ∀ x ∈ l.map roundReaction,
         (runEvents (roundsEvents l) sysInit).fastest_time ≤ x) ∧
    (∀ now (s : Sys), (reset_game now s).fastest_time = UINT32_MAX) ∧
    (∀ (evs : List Ev) (e : Ev),
       (step e (runEvents evs sysInit)).fastest_time = UINT32_MAX →
       (runEvents evs sysInit).fastest_time = UINT32_MAX ∨
       ∃ t, e = .externalPress t) := by
  refine ⟨?_, ?_, ?_, ?_, ?_⟩
  · intro now s
    simp only [show_result]
    split_ifs <;> omega
  · intro l s h1 h2
    exact (rounds_effect l s h1 h2).2.2
  · intro l hne
    have hfold : (runEvents (roundsEvents l) sysInit).fastest_time
        = (l.map roundReaction).foldl min UINT32_MAX :=
      (rounds_effect l sysInit rfl rfl).2.2
    obtain ⟨rs0, rest, rfl⟩ := List.exists_cons_of_ne_nil hne
    have hx0 : roundReaction rs0 ∈ (rs0 :: rest).map roundReaction := by
      simp
    have hleb : ∀ x ∈ (rs0 :: rest).map roundReaction, x ≤ UINT32_MAX := by
      intro x hx
      obtain ⟨rs, _, rfl⟩ := List.mem_map.mp hx
      have := Nat.mod_lt (rs.pressT - rs.armT) (show 0 < 4294967296 by norm_num)
      unfold roundReaction UINT32_MAX
      omega
    constructor
    · rcases foldl_min_mem_or ((rs0 :: rest).map roundReaction) UINT32_MAX with h | h
      · rw [hfold, h]
        have h1 := foldl_min_le_mem ((rs0 :: rest).map roundReaction) UINT32_MAX
          (roundReaction rs0) hx0
        rw [h] at h1
        have h2 := hleb (roundReaction rs0) hx0
        have : roundReaction rs0 = UINT32_MAX := le_antisymm h2 h1
        rw [← this]
        exact hx0
      · rw [hfold]
        exact h
    · intro x hx
      rw [hfold]
      exact foldl_min_le_mem _ _ x hx
  · intro now s
    rfl
  · intro evs e hmax
    exact step_fastest_to_max e (runEvents evs sysInit) (runEvents_fastest_le evs) hmax

/-- C2 witness: the session theorem applied at a concrete two-round
session (reaction times 100 ms then 40 ms; the recorded best is 40 ms),
plus the only-reset-restores conjunct at the external press. -/
theorem best_time_properties_witness :
    (runEvents (roundsEvents [⟨0, 200, 1300000, 1600000⟩,
                              ⟨2000000, 3000, 6040000, 6300000⟩]) sysInit).fastest_time
      = ([⟨0, 200, 1300000, 1600000⟩,
          ⟨2000000, 3000, 6040000, 6300000⟩].map roundReaction).foldl
          min sysInit.fastest_time ∧
    ((runEvents (roundsEvents [⟨0, 200, 1300000, 1600000⟩,
                               ⟨2000000, 3000, 6040000, 6300000⟩]) sysInit).fastest_time
       ∈ [⟨0, 200, 1300000, 1600000⟩,
          (⟨2000000, 3000, 6040000, 6300000⟩ : RoundSpec)].map roundReaction) ∧
    ((runEvents [] sysInit).fastest_time = UINT32_MAX ∨
     ∃ t, Ev.externalPress 5 = Ev.externalPress t) :=
  ⟨best_time_properties.2.1 _ sysInit rfl rfl,
   (best_time_properties.2.2.1 _ (by decide)).1,
   best_time_properties.2.2.2.2 [] (.externalPress 5) (by decide)⟩

end RTG
